import Mathlib

/-!
Verification of `src/python/csv-hasher/hashify.py`, a command-line tool that
reads a CSV file, replaces every value of one named column with a cryptographic
digest of that value, and writes the transformed rows to a new CSV file.

Shallow embedding notes:

* A parsed CSV file is a header (list of column names) plus a list of data rows
  (each a list of string fields), which is what Python's `csv.reader` layer
  yields from the raw file text.  The `csv` stdlib machinery that the script
  relies on (`csv.DictReader` / `csv.DictWriter`) is modelled faithfully,
  including its dict semantics: `DictReader` skips rows that parse to the
  empty list and builds `dict(zip(fieldnames, row))` for the others, so a
  repeated fieldname keeps only the value of its last occurrence, a fieldname
  position beyond the end of a short row ends up holding `None` (the `restval`
  default, here `Option.none`), and the extra fields of a row longer than the
  header are collected under a `None` key, which makes a subsequent
  `DictWriter.writerow` raise `ValueError`.  `DictWriter` emits one cell per
  fieldname occurrence, each holding the dict's single value for that name,
  and writes a `None` cell as the empty field.
* The cryptographic primitives come from Python's `hashlib`, which is outside
  the repository; each digest is modelled as an unspecified pure function from
  UTF-8 byte sequences to hex strings, passed in as the parameter `hashlib`
  (one function per member of the closed algorithm set).  Every theorem holds
  for every choice of these functions, which is exactly what the structural
  claims need.
* The filesystem is a function from path to optional parsed file content;
  `none` models a path that does not exist.
* A process run is summarised by a `RunResult`: the exit status, the content of
  the output file (`none` when the output file was never created), and the
  messages printed to stderr and stdout.
* Python's `str.lower` / `str.upper` are modelled as per-character ASCII case
  mapping (`str_lower` / `str_upper`); on the ASCII algorithm names involved
  here the two agree with Python.
-/

/-- The closed set of hash algorithms supported by the tool
(keys of the `algorithms` dict in `get_hash_function`). -/
inductive HashAlg : Type where
  | md5 : HashAlg
  | sha1 : HashAlg
  | sha256 : HashAlg
  | sha512 : HashAlg
  | blake2b : HashAlg
  | blake2s : HashAlg
  deriving DecidableEq

/-- The canonical (lowercase) name of each supported algorithm. -/
def algName : HashAlg → String
  | .md5 => "md5"
  | .sha1 => "sha1"
  | .sha256 => "sha256"
  | .sha512 => "sha512"
  | .blake2b => "blake2b"
  | .blake2s => "blake2s"

/-- A hash function as used by the script: it consumes a byte sequence (each
byte a `Nat` below 256) and produces the lowercase hexadecimal digest string,
modelling `hash_func(bytes).hexdigest()`. -/
def HashFn : Type := List Nat → String

/-- An assignment of a digest function to each supported algorithm, modelling
the `hashlib` module (external to the repository). -/
def Hashlib : Type := HashAlg → HashFn

/-- Models Python `str.lower()` (ASCII case folding; the algorithm names the
tool compares against are all ASCII). -/
def str_lower (s : String) : String := String.mk (s.data.map Char.toLower)

/-- Models Python `str.upper()`. -/
def str_upper (s : String) : String := String.mk (s.data.map Char.toUpper)

/-- UTF-8 encoding of one character, per the standard encoding (models what
Python `str.encode('utf-8')` does per code point). -/
def utf8Char (c : Char) : List Nat :=
  let n := c.toNat
  if n < 0x80 then [n]
  else if n < 0x800 then
    [0xC0 ||| (n >>> 6), 0x80 ||| (n &&& 0x3F)]
  else if n < 0x10000 then
    [0xE0 ||| (n >>> 12), 0x80 ||| ((n >>> 6) &&& 0x3F), 0x80 ||| (n &&& 0x3F)]
  else
    [0xF0 ||| (n >>> 18), 0x80 ||| ((n >>> 12) &&& 0x3F),
     0x80 ||| ((n >>> 6) &&& 0x3F), 0x80 ||| (n &&& 0x3F)]

/-- Models Python `s.encode('utf-8')`: the UTF-8 byte sequence of a string. -/
def utf8Encode (s : String) : List Nat := s.data.flatMap utf8Char

/-- The `algorithms` dict of `get_hash_function` (hashify.py lines 11-18):
an association from lowercase algorithm name to `hashlib` digest function. -/
def algorithms (hashlib : Hashlib) : List (String × HashFn) :=
  [("md5", hashlib .md5),
   ("sha1", hashlib .sha1),
   ("sha256", hashlib .sha256),
   ("sha512", hashlib .sha512),
   ("blake2b", hashlib .blake2b),
   ("blake2s", hashlib .blake2s)]

/-- `get_hash_function` (hashify.py lines 9-23): look the lowercased algorithm
name up in the `algorithms` dict; raise `ValueError` (modelled as
`Except.error` carrying the exception message) when it is absent, otherwise
return the dict entry. -/
def get_hash_function (hashlib : Hashlib) (algorithm : String) :
    Except String HashFn :=
  match (algorithms hashlib).lookup (str_lower algorithm) with
  | some f => Except.ok f
  | none =>
    Except.error ("Unsupported algorithm: " ++ algorithm ++ ". Supported: " ++
      String.intercalate ", " ((algorithms hashlib).map Prod.fst))

/-- A parsed CSV file: the header row and the data rows, as produced by
Python's `csv.reader` on the raw text. -/
structure CSVFile : Type where
  header : List String
  rows : List (List String)
  deriving DecidableEq

/-- A filesystem: maps a path to the parsed content of the file at that path,
or `none` when no file exists there. -/
def FileSystem : Type := String → Option CSVFile

/-- The raw-row index whose value the `DictReader` row dict keeps for
fieldname `f`: the LAST occurrence of `f` in the header.  `DictReader` builds
`dict(zip(fieldnames, row))` — a repeated fieldname is overwritten left to
right, so its last occurrence wins — and then, for a row shorter than the
header, overwrites with `None` (`restval`) every fieldname listed beyond the
row's end; both effects coincide with reading the raw row at the last
occurrence index, out-of-range reads giving `None`. -/
def lastIdx (header : List String) (f : String) : Nat :=
  header.length - 1 - header.reverse.indexOf f

/-- The value the `DictReader` row dict assigns to fieldname `f` of the
header for the raw row `raw`: the raw value at the last occurrence of `f`,
or `None` when the row is too short to reach that position. -/
def readerValue (header raw : List String) (f : String) : Option String :=
  raw[lastIdx header f]?

/-- The row dict's value at key `f` after the body of the loop at hashify.py
lines 49-53 ran for target column `c`: `original_value = row[column_name];
if original_value: row[column_name] = hash_func(original_value.encode(
'utf-8')).hexdigest()`.  Python truthiness: both `None` and the empty string
are falsy, so the dict entry is left unchanged in those cases; keys other
than `column_name` are never written. -/
def loopValue (hf : HashFn) (header raw : List String) (c f : String) :
    Option String :=
  if f = c then
    match readerValue header raw c with
    | none => none
    | some s => if s = "" then some s else some (hf (utf8Encode s))
  else readerValue header raw f

/-- What `csv.DictWriter.writerow` emits for the transformed row dict: one
cell per header entry, in header order — a repeated fieldname is emitted once
per occurrence, each time holding the dict's single value for that name — and
a `None` cell is written as the empty field. -/
def processRow (hf : HashFn) (header : List String) (c : String)
    (raw : List String) : List String :=
  header.map (fun f => (loopValue hf header raw c f).getD "")

/-- The writer loop at hashify.py lines 49-54 over the rows the `DictReader`
yields: emit the processed row for each raw row, but a raw row with more
fields than the header makes `DictWriter.writerow` raise `ValueError`
(`DictReader` stores the extra fields under the `None` key, which is not a
fieldname), stopping the loop; the `Bool` is `true` when every row was
written. -/
def writeRows (hf : HashFn) (header : List String) (c : String) :
    List (List String) → List (List String) × Bool
  | [] => ([], true)
  | raw :: rest =>
    if header.length < raw.length then ([], false)
    else
      let p := writeRows hf header c rest
      (processRow hf header c raw :: p.1, p.2)

/-- The observable outcome of one process run: the exit status, the content of
the output file (`none` when the output file was never created or truncated,
`some` with the header and the rows actually written otherwise), and the
messages printed to stderr and stdout. -/
structure RunResult : Type where
  exitCode : Nat
  output : Option CSVFile
  stderrMsg : Option String
  stdoutMsg : Option String
  deriving DecidableEq

/-- `hash_csv_column` (hashify.py lines 26-66).  In source order: resolve the
hash function (a `ValueError` here is caught and the process exits 1 having
touched no file); open the input file (`FileNotFoundError` when the path does
not exist: caught, exit 1, no file touched); check that the requested column
is among the fieldnames (`ValueError` when absent: caught, exit 1, the output
file never opened); only then open (create/truncate) the output file, write
the header, and run the row loop; on success print the summary line and
return (exit 0). -/
def hash_csv_column (hashlib : Hashlib) (fs : FileSystem)
    (input_file output_file column_name algorithm : String) : RunResult :=
  match get_hash_function hashlib algorithm with
  | Except.error e =>
    { exitCode := 1, output := none, stderrMsg := some ("Error: " ++ e),
      stdoutMsg := none }
  | Except.ok hf =>
    match fs input_file with
    | none =>
      { exitCode := 1, output := none,
        stderrMsg := some ("Error: File not found - [Errno 2] No such file or directory: '" ++ input_file ++ "'"),
        stdoutMsg := none }
    | some F =>
      if column_name ∈ F.header then
        let p := writeRows hf F.header column_name
          (F.rows.filter (fun r => !r.isEmpty))
        if p.2 then
          { exitCode := 0, output := some ⟨F.header, p.1⟩, stderrMsg := none,
            stdoutMsg := some ("Successfully hashed column '" ++ column_name ++
              "' using " ++ str_upper algorithm ++ " and saved to '" ++
              output_file ++ "'") }
        else
          { exitCode := 1, output := some ⟨F.header, p.1⟩,
            stderrMsg := some "Error: dict contains fields not in fieldnames: None",
            stdoutMsg := none }
      else
        { exitCode := 1, output := none,
          stderrMsg := some ("Error: Column '" ++ column_name ++
            "' not found in CSV. Available columns: " ++
            String.intercalate ", " F.header),
          stdoutMsg := none }

namespace Hashify

/-- `main` (hashify.py lines 69-85) after argument parsing: check
`Path(args.input_file).exists()` and exit 1 without touching the output file
when it fails, otherwise run `hash_csv_column`. -/
def main (hashlib : Hashlib) (fs : FileSystem)
    (input_file output_file column_name algorithm : String) : RunResult :=
  if (fs input_file).isSome then
    hash_csv_column hashlib fs input_file output_file column_name algorithm
  else
    { exitCode := 1, output := none,
      stderrMsg := some ("Error: Input file '" ++ input_file ++
        "' does not exist"),
      stdoutMsg := none }

end Hashify

/-- The field at row index `k` (0-based, over the data rows) and column index
`i` of the output file of a run, when that file, row and field all exist. -/
def outputCell (r : RunResult) (k i : Nat) : Option String :=
  (r.output.bind (fun f => f.rows[k]?)).bind (fun row => row[i]?)

/-! ### Helper lemmas about occurrence indices -/

theorem indexOf_le_of_getElem {a : String} :
    ∀ {l : List String} {k : Nat}, l[k]? = some a → l.indexOf a ≤ k := by
  intro l
  induction l with
  | nil =>
    intro k h
    simp at h
  | cons x xs ih =>
    intro k h
    cases k with
    | zero =>
      rw [List.getElem?_cons_zero] at h
      have hx : x = a := by injection h
      subst hx
      simp [List.indexOf_cons_self]
    | succ k =>
      rw [List.getElem?_cons_succ] at h
      by_cases hx : x = a
      · subst hx
        simp [List.indexOf_cons_self]
      · rw [List.indexOf_cons_ne _ hx]
        exact Nat.succ_le_succ (ih h)

theorem lastIdx_lt_length {header : List String} {f : String} (h : f ∈ header) :
    lastIdx header f < header.length := by
  have hn : 0 < header.length := List.length_pos.2 (List.ne_nil_of_mem h)
  unfold lastIdx
  omega

theorem getElem_lastIdx {header : List String} {f : String} (h : f ∈ header) :
    header[lastIdx header f]? = some f := by
  have hrev : f ∈ header.reverse := List.mem_reverse.2 h
  have hj : header.reverse.indexOf f < header.reverse.length :=
    List.indexOf_lt_length.2 hrev
  have hval := List.getElem_indexOf hj
  rw [List.getElem_reverse] at hval
  have hlt : lastIdx header f < header.length := lastIdx_lt_length h
  rw [List.getElem?_eq_getElem hlt]
  exact congrArg some hval

theorem indexOf_le_lastIdx {header : List String} {f : String}
    (h : f ∈ header) : header.indexOf f ≤ lastIdx header f :=
  indexOf_le_of_getElem (getElem_lastIdx h)

theorem lastIdx_of_nodup {header : List String} {f : String} {i : Nat}
    (hnd : header.Nodup) (hi : header[i]? = some f) :
    lastIdx header f = i := by
  obtain ⟨hilt, hieq⟩ := List.getElem?_eq_some.1 hi
  have hmem : f ∈ header := by
    rw [← hieq]
    exact List.getElem_mem hilt
  obtain ⟨hLlt, hLeq⟩ := List.getElem?_eq_some.1 (getElem_lastIdx hmem)
  exact (List.Nodup.getElem_inj_iff hnd).1 (hLeq.trans hieq.symm)

theorem getElem_indexOf_self {header : List String} {c : String}
    (hc : c ∈ header) : header[header.indexOf c]? = some c := by
  have hidx : header.indexOf c < header.length := List.indexOf_lt_length.2 hc
  rw [List.getElem?_eq_getElem hidx]
  exact congrArg some (List.getElem_indexOf hidx)

/-! ### Helper lemmas about the row transformation -/

theorem readerValue_of_nodup {header : List String} {f : String} {i : Nat}
    (hnd : header.Nodup) (hi : header[i]? = some f) (raw : List String) :
    readerValue header raw f = raw[i]? := by
  unfold readerValue
  rw [lastIdx_of_nodup hnd hi]

theorem loopValue_target_nonempty (hf : HashFn) (header raw : List String)
    (c : String) {v : String} (hv : readerValue header raw c = some v)
    (hne : v ≠ "") :
    loopValue hf header raw c c = some (hf (utf8Encode v)) := by
  unfold loopValue
  rw [if_pos rfl, hv]
  simp [hne]

theorem loopValue_target_empty (hf : HashFn) (header raw : List String)
    (c : String) (hv : readerValue header raw c = some "") :
    loopValue hf header raw c c = some "" := by
  unfold loopValue
  rw [if_pos rfl, hv]
  rfl

theorem loopValue_target_missing (hf : HashFn) (header raw : List String)
    (c : String) (hv : readerValue header raw c = none) :
    loopValue hf header raw c c = none := by
  unfold loopValue
  rw [if_pos rfl, hv]

theorem loopValue_other (hf : HashFn) (header raw : List String)
    {c f : String} (hne : f ≠ c) :
    loopValue hf header raw c f = readerValue header raw f := by
  unfold loopValue
  rw [if_neg hne]

theorem processRow_length (hf : HashFn) (header : List String) (c : String)
    (raw : List String) : (processRow hf header c raw).length = header.length := by
  unfold processRow
  rw [List.length_map]

theorem processRow_getElem (hf : HashFn) (header : List String) (c : String)
    (raw : List String) {i : Nat} {f : String} (hi : header[i]? = some f) :
    (processRow hf header c raw)[i]? =
      some ((loopValue hf header raw c f).getD "") := by
  unfold processRow
  rw [List.getElem?_map, hi]
  rfl

theorem writeRows_ok (hf : HashFn) (header : List String) (c : String)
    (l : List (List String)) (h : ∀ r ∈ l, r.length ≤ header.length) :
    writeRows hf header c l = (l.map (processRow hf header c), true) := by
  induction l with
  | nil => rfl
  | cons r rest ih =>
    have hr : ¬ header.length < r.length := not_lt.2 (h r (List.mem_cons_self r rest))
    have hrest := ih (fun x hx => h x (List.mem_cons_of_mem r hx))
    simp [writeRows, hr, hrest]

/-- Successful-run shape of `hash_csv_column`: with a resolvable algorithm, an
existing input file, a present column, and no data row wider than the header,
the run exits 0 and the output file is the input header followed by the
processed rows (blank rows skipped by `DictReader`). -/
theorem hash_csv_column_run (hashlib : Hashlib) (fs : FileSystem)
    (inp outp c a : String) (hf : HashFn) (F : CSVFile)
    (ha : get_hash_function hashlib a = Except.ok hf)
    (hfs : fs inp = some F) (hc : c ∈ F.header)
    (hlen : ∀ r ∈ F.rows, r.length ≤ F.header.length) :
    hash_csv_column hashlib fs inp outp c a =
      { exitCode := 0,
        output := some ⟨F.header, (F.rows.filter (fun r => !r.isEmpty)).map
          (processRow hf F.header c)⟩,
        stderrMsg := none,
        stdoutMsg := some ("Successfully hashed column '" ++ c ++
          "' using " ++ str_upper a ++ " and saved to '" ++ outp ++ "'") } := by
  have hflen : ∀ r ∈ F.rows.filter (fun r => !r.isEmpty),
      r.length ≤ F.header.length :=
    fun r hr => hlen r (List.mem_of_mem_filter hr)
  unfold hash_csv_column
  rw [ha, hfs]
  simp only [hc, if_true, writeRows_ok _ _ _ _ hflen]

/-! ### Demonstration inputs used to instantiate the theorems -/

/-- A concrete assignment of digest functions for the six algorithms, used to
instantiate the (hash-function-generic) theorems at concrete inputs. -/
def demoHashlib : Hashlib := fun a bs =>
  algName a ++ ":" ++ String.intercalate "." (bs.map toString)

/-- A concrete filesystem holding the specification's example file plus a file
with a row that has fewer fields than the header. -/
def demoFs : FileSystem := fun path =>
  if path = "in.csv" then
    some ⟨["id", "email"], [["1", "alice@example.com"], ["2", ""]]⟩
  else if path = "short.csv" then
    some ⟨["a", "b"], [["1"]]⟩
  else none

/-! ### The claims -/

/-- C5: if the requested column name is absent from the input header, the run
terminates with exit status 1 and an error message that names the missing
column and enumerates the columns available in the header. -/
theorem C5_missing_column_exit (hashlib : Hashlib) (fs : FileSystem)
    (inp outp c a : String) (hf : HashFn) (F : CSVFile)
    (ha : get_hash_function hashlib a = Except.ok hf)
    (hfs : fs inp = some F) (hc : c ∉ F.header) :
    (hash_csv_column hashlib fs inp outp c a).exitCode = 1 ∧
    (hash_csv_column hashlib fs inp outp c a).stderrMsg =
      some ("Error: Column '" ++ c ++
        "' not found in CSV. Available columns: " ++
        String.intercalate ", " F.header) := by
  unfold hash_csv_column
  rw [ha, hfs]
  simp [hc]

/-- Witness for C5: asking for column `name` in the example file fails with
exit status 1 and the message listing `id, email`. -/
theorem C5_missing_column_exit_witness :
    "name" ∉ (["id", "email"] : List String) ∧
    (hash_csv_column demoHashlib demoFs "in.csv" "out.csv" "name" "sha256").exitCode = 1 ∧
    (hash_csv_column demoHashlib demoFs "in.csv" "out.csv" "name" "sha256").stderrMsg =
      some "Error: Column 'name' not found in CSV. Available columns: id, email" :=
  ⟨by decide,
   C5_missing_column_exit demoHashlib demoFs "in.csv" "out.csv" "name" "sha256"
     (demoHashlib HashAlg.sha256) ⟨["id", "email"], [["1", "alice@example.com"], ["2", ""]]⟩
     rfl rfl (by decide)⟩

/-- C9 (implicit): when the run fails because the target column is absent from
the header, the output file is never created or truncated — the
column-membership check happens while only the input file is open, before the
output file is opened for writing. -/
theorem C9_missing_column_no_output (hashlib : Hashlib) (fs : FileSystem)
    (inp outp c a : String) (hf : HashFn) (F : CSVFile)
    (ha : get_hash_function hashlib a = Except.ok hf)
    (hfs : fs inp = some F) (hc : c ∉ F.header) :
    (hash_csv_column hashlib fs inp outp c a).output = none := by
  unfold hash_csv_column
  rw [ha, hfs]
  simp [hc]

/-- Witness for C9: the failing `name` run leaves no output file. -/
theorem C9_missing_column_no_output_witness :
    "name" ∉ (["id", "email"] : List String) ∧
    (hash_csv_column demoHashlib demoFs "in.csv" "out.csv" "name" "sha256").output = none :=
  ⟨by decide,
   C9_missing_column_no_output demoHashlib demoFs "in.csv" "out.csv" "name" "sha256"
     (demoHashlib HashAlg.sha256) ⟨["id", "email"], [["1", "alice@example.com"], ["2", ""]]⟩
     rfl rfl (by decide)⟩

/-- C6: if the input path does not name an existing file, the process exits
with status 1 before performing any write to (or creation/truncation of) the
output file. -/
theorem C6_nonexistent_input (hashlib : Hashlib) (fs : FileSystem)
    (inp outp c a : String) (h : fs inp = none) :
    (Hashify.main hashlib fs inp outp c a).exitCode = 1 ∧
    (Hashify.main hashlib fs inp outp c a).output = none := by
  unfold Hashify.main
  rw [h]
  simp

/-- Witness for C6: running on a path the filesystem does not contain. -/
theorem C6_nonexistent_input_witness :
    demoFs "nope.csv" = none ∧
    (Hashify.main demoHashlib demoFs "nope.csv" "out.csv" "email" "sha256").exitCode = 1 ∧
    (Hashify.main demoHashlib demoFs "nope.csv" "out.csv" "email" "sha256").output = none :=
  ⟨rfl,
   C6_nonexistent_input demoHashlib demoFs "nope.csv" "out.csv" "email" "sha256" rfl⟩

/-- C8: the transformation is deterministic — two runs over byte-identical
input files with the same target column and the same algorithm (and the same
digest functions, which `hashlib` guarantees are fixed pure functions) produce
byte-identical output files. -/
theorem C8_deterministic (hashlib : Hashlib) (fs₁ fs₂ : FileSystem)
    (i₁ i₂ o₁ o₂ c₁ c₂ a₁ a₂ : String)
    (hin : fs₁ i₁ = fs₂ i₂) (hc : c₁ = c₂) (ha : a₁ = a₂) :
    (hash_csv_column hashlib fs₁ i₁ o₁ c₁ a₁).output =
    (hash_csv_column hashlib fs₂ i₂ o₂ c₂ a₂).output := by
  subst hc
  subst ha
  unfold hash_csv_column
  cases hgh : get_hash_function hashlib a₁ with
  | error e => rfl
  | ok hf =>
    rw [hin]
    cases fs₂ i₂ with
    | none => rfl
    | some F =>
      by_cases hcF : c₁ ∈ F.header
      · cases hp : (writeRows hf F.header c₁
          (F.rows.filter (fun r => !r.isEmpty))).2 <;> simp [hcF, hp]
      · simp [hcF]

/-- Witness for C8: two runs on the example file (with different output
paths) produce the same output content. -/
theorem C8_deterministic_witness :
    demoFs "in.csv" = demoFs "in.csv" ∧
    (hash_csv_column demoHashlib demoFs "in.csv" "out1.csv" "email" "sha256").output =
    (hash_csv_column demoHashlib demoFs "in.csv" "out2.csv" "email" "sha256").output :=
  ⟨rfl,
   C8_deterministic demoHashlib demoFs demoFs "in.csv" "in.csv" "out1.csv" "out2.csv"
     "email" "email" "sha256" "sha256" rfl rfl rfl⟩

/-- C7: the algorithm resolver matches its argument case-insensitively against
the closed set {md5, sha1, sha256, sha512, blake2b, blake2s}, returning the
corresponding digest function, and fails for every name outside that set with
a `ValueError` whose message lists the valid set. -/
theorem C7_resolver (hashlib : Hashlib) (name : String) :
    (∀ alg : HashAlg, str_lower name = algName alg →
      get_hash_function hashlib name = Except.ok (hashlib alg)) ∧
    ((∀ alg : HashAlg, str_lower name ≠ algName alg) →
      get_hash_function hashlib name = Except.error
        ("Unsupported algorithm: " ++ name ++
          ". Supported: md5, sha1, sha256, sha512, blake2b, blake2s")) := by
  constructor
  · intro alg h
    cases alg <;>
      · simp only [algName] at h
        unfold get_hash_function algorithms
        rw [h]
        rfl
  · intro h
    have h1 : (str_lower name == "md5") = false := beq_eq_false_iff_ne.2 (h HashAlg.md5)
    have h2 : (str_lower name == "sha1") = false := beq_eq_false_iff_ne.2 (h HashAlg.sha1)
    have h3 : (str_lower name == "sha256") = false := beq_eq_false_iff_ne.2 (h HashAlg.sha256)
    have h4 : (str_lower name == "sha512") = false := beq_eq_false_iff_ne.2 (h HashAlg.sha512)
    have h5 : (str_lower name == "blake2b") = false := beq_eq_false_iff_ne.2 (h HashAlg.blake2b)
    have h6 : (str_lower name == "blake2s") = false := beq_eq_false_iff_ne.2 (h HashAlg.blake2s)
    unfold get_hash_function algorithms
    simp only [List.lookup, h1, h2, h3, h4, h5, h6]
    rw [String.append_assoc]
    rfl

/-- Witness for C7: `SHA256` resolves (case-insensitively) to the sha256
digest function, while `crc32` is rejected with the message listing the
supported set. -/
theorem C7_resolver_witness :
    get_hash_function demoHashlib "SHA256" = Except.ok (demoHashlib HashAlg.sha256) ∧
    get_hash_function demoHashlib "crc32" = Except.error
      "Unsupported algorithm: crc32. Supported: md5, sha1, sha256, sha512, blake2b, blake2s" :=
  ⟨(C7_resolver demoHashlib "SHA256").1 HashAlg.sha256 (by decide),
   (C7_resolver demoHashlib "crc32").2 (by intro alg; cases alg <;> decide)⟩

/-- C1: for every data row whose target-column value is a non-empty string,
the transcoder replaces that value in the output with the digest of the
value's UTF-8 byte encoding computed by the resolved hash function.  Rows are
indexed over the stream the `DictReader` yields.  The header is assumed
duplicate-free, matching the specification's data model of a row as a mapping
from column name to value; with a repeated column name the `DictReader` row
dict collapses the duplicates (last value wins, see `readerValue`) and the
claim's per-column reading no longer applies. -/
theorem C1_nonempty_value_hashed (hashlib : Hashlib) (fs : FileSystem)
    (inp outp c a : String) (hf : HashFn) (F : CSVFile)
    (ha : get_hash_function hashlib a = Except.ok hf)
    (hfs : fs inp = some F) (hc : c ∈ F.header) (hnd : F.header.Nodup)
    (hlen : ∀ r ∈ F.rows, r.length ≤ F.header.length)
    (k : Nat) (raw : List String)
    (hk : (F.rows.filter (fun r => !r.isEmpty))[k]? = some raw)
    (v : String) (hv : raw[F.header.indexOf c]? = some v) (hne : v ≠ "") :
    outputCell (hash_csv_column hashlib fs inp outp c a) k (F.header.indexOf c) =
      some (hf (utf8Encode v)) := by
  have hcidx : F.header[F.header.indexOf c]? = some c := getElem_indexOf_self hc
  have hrv : readerValue F.header raw c = some v := by
    rw [readerValue_of_nodup hnd hcidx raw]
    exact hv
  rw [hash_csv_column_run hashlib fs inp outp c a hf F ha hfs hc hlen]
  show (((F.rows.filter (fun r => !r.isEmpty)).map
      (processRow hf F.header c))[k]?).bind
      (fun row => row[F.header.indexOf c]?) = some (hf (utf8Encode v))
  rw [List.getElem?_map, hk]
  show (processRow hf F.header c raw)[F.header.indexOf c]? = some (hf (utf8Encode v))
  rw [processRow_getElem hf F.header c raw hcidx,
      loopValue_target_nonempty hf F.header raw c hrv hne]
  rfl

/-- Witness for C1: the example file's first row holds `alice@example.com`,
which the run replaces by its digest. -/
theorem C1_nonempty_value_hashed_witness :
    "alice@example.com" ≠ "" ∧
    outputCell (hash_csv_column demoHashlib demoFs "in.csv" "out.csv" "email" "sha256") 0 1 =
      some (demoHashlib HashAlg.sha256 (utf8Encode "alice@example.com")) :=
  ⟨by decide,
   C1_nonempty_value_hashed demoHashlib demoFs "in.csv" "out.csv" "email" "sha256"
     (demoHashlib HashAlg.sha256)
     ⟨["id", "email"], [["1", "alice@example.com"], ["2", ""]]⟩
     rfl rfl (by decide) (by decide) (by decide) 0 ["1", "alice@example.com"] (by decide)
     "alice@example.com" (by decide) (by decide)⟩

/-- C2: for every valid input (existing file, header containing the target
column, every data row with exactly as many fields as the header), the run
succeeds, the output header equals the input header (same column order), and
the output has exactly as many data rows as the input. -/
theorem C2_header_and_row_count (hashlib : Hashlib) (fs : FileSystem)
    (inp outp c a : String) (hf : HashFn) (F : CSVFile)
    (ha : get_hash_function hashlib a = Except.ok hf)
    (hfs : fs inp = some F) (hc : c ∈ F.header)
    (hlen : ∀ r ∈ F.rows, r.length = F.header.length) :
    (hash_csv_column hashlib fs inp outp c a).exitCode = 0 ∧
    (hash_csv_column hashlib fs inp outp c a).output.map CSVFile.header =
      some F.header ∧
    (hash_csv_column hashlib fs inp outp c a).output.map (fun f => f.rows.length) =
      some F.rows.length := by
  have hle : ∀ r ∈ F.rows, r.length ≤ F.header.length := fun r hr => (hlen r hr).le
  have hpos : 0 < F.header.length :=
    List.length_pos.2 (List.ne_nil_of_mem hc)
  have hfilter : F.rows.filter (fun r => !r.isEmpty) = F.rows := by
    apply List.filter_eq_self.2
    intro r hr
    have hne : r ≠ [] := by
      intro e
      rw [e] at hr
      have h0 := hlen [] hr
      simp at h0
      omega
    simp [hne]
  rw [hash_csv_column_run hashlib fs inp outp c a hf F ha hfs hc hle, hfilter]
  refine ⟨rfl, rfl, ?_⟩
  simp

/-- Witness for C2: the example run keeps both data rows and the header. -/
theorem C2_header_and_row_count_witness :
    (∀ r ∈ (⟨["id", "email"], [["1", "alice@example.com"], ["2", ""]]⟩ : CSVFile).rows,
      r.length = 2) ∧
    (hash_csv_column demoHashlib demoFs "in.csv" "out.csv" "email" "sha256").exitCode = 0 ∧
    (hash_csv_column demoHashlib demoFs "in.csv" "out.csv" "email" "sha256").output.map
      CSVFile.header = some ["id", "email"] ∧
    (hash_csv_column demoHashlib demoFs "in.csv" "out.csv" "email" "sha256").output.map
      (fun f => f.rows.length) = some 2 :=
  ⟨by decide,
   C2_header_and_row_count demoHashlib demoFs "in.csv" "out.csv" "email" "sha256"
     (demoHashlib HashAlg.sha256)
     ⟨["id", "email"], [["1", "alice@example.com"], ["2", ""]]⟩
     rfl rfl (by decide) (by decide)⟩

/-- C3: for every data row and every column other than the target column, the
value written to the output equals the value read from the input.  The header
is assumed duplicate-free, matching the specification's data model of a row
as a mapping from column name to value; with a repeated column name the
`DictReader` row dict keeps only the last duplicate's value and the
`DictWriter` re-emits it at every occurrence (see `readerValue` /
`processRow`), so per-position passthrough fails there. -/
theorem C3_nontarget_passthrough (hashlib : Hashlib) (fs : FileSystem)
    (inp outp c a : String) (hf : HashFn) (F : CSVFile)
    (ha : get_hash_function hashlib a = Except.ok hf)
    (hfs : fs inp = some F) (hc : c ∈ F.header) (hnd : F.header.Nodup)
    (hlen : ∀ r ∈ F.rows, r.length ≤ F.header.length)
    (k : Nat) (raw : List String)
    (hk : (F.rows.filter (fun r => !r.isEmpty))[k]? = some raw)
    (hrlen : raw.length = F.header.length)
    (i : Nat) (hi : i < F.header.length) (hne : i ≠ F.header.indexOf c) :
    outputCell (hash_csv_column hashlib fs inp outp c a) k i = raw[i]? := by
  have hcidx : F.header[F.header.indexOf c]? = some c := getElem_indexOf_self hc
  have hig : F.header[i]? = some F.header[i] := List.getElem?_eq_getElem hi
  have hfne : F.header[i] ≠ c := by
    intro e
    apply hne
    have h1 : lastIdx F.header c = i := lastIdx_of_nodup hnd (by rw [hig, e])
    have h2 : lastIdx F.header c = F.header.indexOf c := lastIdx_of_nodup hnd hcidx
    omega
  have hir : i < raw.length := by
    rw [hrlen]
    exact hi
  rw [hash_csv_column_run hashlib fs inp outp c a hf F ha hfs hc hlen]
  show (((F.rows.filter (fun r => !r.isEmpty)).map
      (processRow hf F.header c))[k]?).bind (fun row => row[i]?) = raw[i]?
  rw [List.getElem?_map, hk]
  show (processRow hf F.header c raw)[i]? = raw[i]?
  rw [processRow_getElem hf F.header c raw hig,
      loopValue_other hf F.header raw hfne,
      readerValue_of_nodup hnd hig raw,
      List.getElem?_eq_getElem hir]
  rfl

/-- Witness for C3: the `id` column of the example file's first row passes
through unchanged. -/
theorem C3_nontarget_passthrough_witness :
    (0 : Nat) ≠ (["id", "email"].indexOf "email") ∧
    outputCell (hash_csv_column demoHashlib demoFs "in.csv" "out.csv" "email" "sha256") 0 0 =
      some "1" :=
  ⟨by decide,
   C3_nontarget_passthrough demoHashlib demoFs "in.csv" "out.csv" "email" "sha256"
     (demoHashlib HashAlg.sha256)
     ⟨["id", "email"], [["1", "alice@example.com"], ["2", ""]]⟩
     rfl rfl (by decide) (by decide) (by decide) 0 ["1", "alice@example.com"] (by decide)
     (by decide) 0 (by decide) (by decide)⟩

/-- C4: for every data row whose target-column value is the empty string, the
output value for that column is also the empty string — the empty value is
never replaced by the digest of the empty byte sequence.  The header is
assumed duplicate-free, matching the specification's data model; with a
repeated column name the `DictReader` row dict keeps only the last
duplicate's value, so an empty value at an earlier occurrence is not what the
loop tests. -/
theorem C4_empty_value_stays_empty (hashlib : Hashlib) (fs : FileSystem)
    (inp outp c a : String) (hf : HashFn) (F : CSVFile)
    (ha : get_hash_function hashlib a = Except.ok hf)
    (hfs : fs inp = some F) (hc : c ∈ F.header) (hnd : F.header.Nodup)
    (hlen : ∀ r ∈ F.rows, r.length ≤ F.header.length)
    (k : Nat) (raw : List String)
    (hk : (F.rows.filter (fun r => !r.isEmpty))[k]? = some raw)
    (hv : raw[F.header.indexOf c]? = some "") :
    outputCell (hash_csv_column hashlib fs inp outp c a) k (F.header.indexOf c) =
      some "" := by
  have hcidx : F.header[F.header.indexOf c]? = some c := getElem_indexOf_self hc
  have hrv : readerValue F.header raw c = some "" := by
    rw [readerValue_of_nodup hnd hcidx raw]
    exact hv
  rw [hash_csv_column_run hashlib fs inp outp c a hf F ha hfs hc hlen]
  show (((F.rows.filter (fun r => !r.isEmpty)).map
      (processRow hf F.header c))[k]?).bind
      (fun row => row[F.header.indexOf c]?) = some ""
  rw [List.getElem?_map, hk]
  show (processRow hf F.header c raw)[F.header.indexOf c]? = some ""
  rw [processRow_getElem hf F.header c raw hcidx,
      loopValue_target_empty hf F.header raw c hrv]
  rfl

/-- Witness for C4: the example file's second row has an empty `email` value,
which stays empty in the output. -/
theorem C4_empty_value_stays_empty_witness :
    (["2", ""] : List String)[(["id", "email"].indexOf "email")]? = some "" ∧
    outputCell (hash_csv_column demoHashlib demoFs "in.csv" "out.csv" "email" "sha256") 1 1 =
      some "" :=
  ⟨by decide,
   C4_empty_value_stays_empty demoHashlib demoFs "in.csv" "out.csv" "email" "sha256"
     (demoHashlib HashAlg.sha256)
     ⟨["id", "email"], [["1", "alice@example.com"], ["2", ""]]⟩
     rfl rfl (by decide) (by decide) (by decide) 1 ["2", ""] (by decide) (by decide)⟩

/-- C10 (implicit): the empty-value skip is decided by Python truthiness, so a
data row with fewer fields than the header — whose target-column value the
`DictReader` reads as `None` — is also left unhashed and written out with an
empty field in the target column, and the run still exits 0 rather than
raising an error.  This holds with no duplicate-freedom assumption: when the
row ends before the first occurrence of the target name it also ends before
the last occurrence, which is the one the row dict reads. -/
theorem C10_short_row_left_empty (hashlib : Hashlib) (fs : FileSystem)
    (inp outp c a : String) (hf : HashFn) (F : CSVFile)
    (ha : get_hash_function hashlib a = Except.ok hf)
    (hfs : fs inp = some F) (hc : c ∈ F.header)
    (hlen : ∀ r ∈ F.rows, r.length ≤ F.header.length)
    (k : Nat) (raw : List String)
    (hk : (F.rows.filter (fun r => !r.isEmpty))[k]? = some raw)
    (hshort : raw.length ≤ F.header.indexOf c) :
    (hash_csv_column hashlib fs inp outp c a).exitCode = 0 ∧
    outputCell (hash_csv_column hashlib fs inp outp c a) k (F.header.indexOf c) =
      some "" := by
  have hcidx : F.header[F.header.indexOf c]? = some c := getElem_indexOf_self hc
  have hrv : readerValue F.header raw c = none := by
    unfold readerValue
    apply List.getElem?_eq_none
    calc raw.length ≤ F.header.indexOf c := hshort
      _ ≤ lastIdx F.header c := indexOf_le_lastIdx hc
  constructor
  · rw [hash_csv_column_run hashlib fs inp outp c a hf F ha hfs hc hlen]
  · rw [hash_csv_column_run hashlib fs inp outp c a hf F ha hfs hc hlen]
    show (((F.rows.filter (fun r => !r.isEmpty)).map
        (processRow hf F.header c))[k]?).bind
        (fun row => row[F.header.indexOf c]?) = some ""
    rw [List.getElem?_map, hk]
    show (processRow hf F.header c raw)[F.header.indexOf c]? = some ""
    rw [processRow_getElem hf F.header c raw hcidx,
        loopValue_target_missing hf F.header raw c hrv]
    rfl

/-- Witness for C10: in `short.csv` the single data row has one field while
the header has two; hashing column `b` leaves an empty field and exits 0. -/
theorem C10_short_row_left_empty_witness :
    (["1"] : List String).length ≤ (["a", "b"].indexOf "b") ∧
    (hash_csv_column demoHashlib demoFs "short.csv" "out.csv" "b" "sha256").exitCode = 0 ∧
    outputCell (hash_csv_column demoHashlib demoFs "short.csv" "out.csv" "b" "sha256") 0 1 =
      some "" :=
  ⟨by decide,
   C10_short_row_left_empty demoHashlib demoFs "short.csv" "out.csv" "b" "sha256"
     (demoHashlib HashAlg.sha256) ⟨["a", "b"], [["1"]]⟩
     rfl rfl (by decide) (by decide) 0 ["1"] (by decide) (by decide)⟩
